import Mathlib

/-!
# Verification of the migrateforce migration-repository

Shallow embedding of the recipe-driven migration engine sketched in
`src/tools/package-managers/npm-to-pnpm.md` (namespace `NpmToPnpm`) and of the
recipe validator in `src/languages/python-to-typescript/validator.ts`
(namespace `PyToTs`), together with theorems settling the frozen claims about
the natural-language specification.

Strings are manipulated through their underlying `List Char`.  JavaScript's
`String.prototype.replace` with a `/g` regex built from a recipe pattern is
modelled for literal (metacharacter-free) patterns: the replacement scans left
to right and substitutes non-overlapping occurrences, and an empty pattern
inserts the replacement at every gap, exactly as the JS empty regex does.
`String.prototype.includes` is modelled by `substrB`.
-/

set_option maxRecDepth 4000

/-! ## String machinery shared by both namespaces -/

/-- Left-to-right scan used by the model of JS `s.replace(new RegExp(pat, 'g'), repl)`
for a non-empty literal pattern: at each position, if the pattern is a
leading segment of the rest of the text, emit the replacement and jump over
the matched occurrence, else keep one character and continue.  The recursion
is driven by a fuel counter so that it is structural and kernel-evaluable;
with a non-empty pattern every step consumes at least one character, so fuel
equal to the text length is always enough. -/
def replaceLFuel (pat repl : List Char) : Nat → List Char → List Char
  | 0, s => s
  | _ + 1, [] => []
  | fuel + 1, c :: rest =>
    if pat.isPrefixOf (c :: rest) then
      repl ++ replaceLFuel pat repl fuel ((c :: rest).drop pat.length)
    else
      c :: replaceLFuel pat repl fuel rest

/-- The scan of `replaceLFuel` with adequate fuel.  Only called with a
non-empty pattern (the wrapper `jsReplaceAll` treats the empty pattern
separately). -/
def replaceL (pat repl s : List Char) : List Char :=
  replaceLFuel pat repl s.length s

/-- Occurrence test on character lists: does `pat` occur as a contiguous
segment of `s`?  Models the matching done by JS `includes` and by a literal
global regex.  The empty pattern occurs in every string. -/
def occursB (pat : List Char) : List Char → Bool
  | [] => pat.isPrefixOf []
  | c :: rest => pat.isPrefixOf (c :: rest) || occursB pat rest

/-- Model of JS `s.includes(pat)`. -/
def substrB (s pat : String) : Bool :=
  occursB pat.data s.data

/-- Model of JS `s.replace(new RegExp(pat, 'g'), repl)` for a literal pattern
`pat` and a replacement without `$`-escapes.  The empty pattern reproduces the
JS behaviour of an empty global regex, which matches at every position. -/
def jsReplaceAll (s pat repl : String) : String :=
  if pat.data = [] then
    ⟨repl.data ++ s.data.flatMap (fun c => c :: repl.data)⟩
  else
    ⟨replaceL pat.data repl.data s.data⟩

namespace NpmToPnpm

/-! ## Recipe data model (`npm-to-pnpm.md`, interface `Recipe`, lines 112-189) -/

structure Contact where
  email : String
  slack : String
deriving DecidableEq

structure Metadata where
  name : String
  description : String
  owner : String
  contact : Contact
  tags : List String
  priority : String
  estimated_downtime : String
deriving DecidableEq

structure Location where
  type : String
  url : String
  branch : String
  paths : List String
deriving DecidableEq

structure Discovery where
  locations : List Location
  analysis : List String
deriving DecidableEq

structure CodePatternInfo where
  usage : String
  migration_strategy : String
deriving DecidableEq

structure Source where
  type : String
  discovery : Discovery
  code_patterns : List (String × CodePatternInfo)
deriving DecidableEq

structure NpmPackage where
  name : String
  version : String
deriving DecidableEq

structure Dependencies where
  npm_packages : List NpmPackage
deriving DecidableEq

/-- Value of one `target.configuration` entry (`Record<string, boolean | string>`). -/
inductive ConfigValue where
  | bool (b : Bool)
  | str (s : String)
deriving DecidableEq

structure Target where
  manager : String
  version : String
  configuration : List (String × ConfigValue)
deriving DecidableEq

structure AnalysisCode where
  type : String
  tools : List String
  goal : String
deriving DecidableEq

structure Analysis where
  code : List AnalysisCode
deriving DecidableEq

structure Stage where
  stage : String
  checks : List String
deriving DecidableEq

structure Validation where
  stages : List Stage
deriving DecidableEq

structure Observability where
  metrics : List String
deriving DecidableEq

structure RollbackStrategy where
  type : String
  version_control : String
deriving DecidableEq

structure Rollback where
  strategy : RollbackStrategy
deriving DecidableEq

/-- One entry of `ai_agent_instructions.pattern_mappings.npm_to_pnpm`.  The
source names the third field `example`; that word is reserved in Lean, so the
field is called `sample` here. -/
structure PatternMapping where
  pattern : String
  pnpm : String
  sample : String
deriving DecidableEq

structure PatternMappings where
  npm_to_pnpm : List PatternMapping
deriving DecidableEq

structure ConversionStep where
  step : String
  actions : List String
deriving DecidableEq

structure AiAgentInstructions where
  priorities : List String
  conversion_steps : List ConversionStep
  pattern_mappings : PatternMappings
  validation_rules : List String
deriving DecidableEq

structure Recipe where
  metadata : Metadata
  source : Source
  dependencies : Dependencies
  target : Target
  analysis : Analysis
  validation : Validation
  observability : Observability
  rollback : Rollback
  ai_agent_instructions : AiAgentInstructions
deriving DecidableEq

/-- A recipe with every field empty, used as the base of concrete instances. -/
def emptyRecipe : Recipe :=
  ⟨⟨"", "", "", ⟨"", ""⟩, [], "", ""⟩,
   ⟨"", ⟨[], []⟩, []⟩,
   ⟨[]⟩,
   ⟨"", "", []⟩,
   ⟨[]⟩,
   ⟨[]⟩,
   ⟨[]⟩,
   ⟨⟨"", ""⟩⟩,
   ⟨[], [], ⟨[]⟩, []⟩⟩

/-! ## Lockfile conversion (`convertLockfile`, lines 276-284) -/

/-- Embedding of `convertLockfile`: fold over the declared mappings in order,
each applying a global replacement of its pattern by its `pnpm` text. -/
def convertLockfile (npmLockContent : String) (mappings : List PatternMapping) : String :=
  mappings.foldl (fun pnpmLockContent m => jsReplaceAll pnpmLockContent m.pattern m.pnpm)
    npmLockContent

/-! ## Script rewriting (`executeStep`, case `replace-npm-run-with-pnpm`, lines 467-476) -/

/-- Embedding of the body of the `replace-npm-run-with-pnpm` action applied to
one script value: first `/npm run /g -> 'pnpm '`, then the special case
`/npm start/g -> 'pnpm start'`. -/
def replaceNpmRunWithPnpm (script : String) : String :=
  jsReplaceAll (jsReplaceAll script "npm run " "pnpm ") "npm start" "pnpm start"

/-! ## Validation stage execution (`runChecks` and the stage loop, lines 297-339)

A check either completes (possibly after spawning external commands that
succeed) or throws when an `execSync` call fails.  The external-command
environment is a function `cmdOk : String -> Bool` saying which commands exit
with status zero.  Console output is modelled as a list of log entries, so
that a silent no-op, an informational line and a warning are distinguishable. -/

inductive LogEntry where
  | info (msg : String)
  | warn (msg : String)
deriving DecidableEq

/-- Result of running one check body: the log it produced, and, when an
`execSync` call failed, the propagated exception. -/
inductive CheckRun where
  | completed (log : List LogEntry)
  | threw (log : List LogEntry) (err : String)
deriving DecidableEq

/-- Embedding of the `switch (check)` inside `runChecks` (lines 299-332).
`unit-tests-pass` runs `pnpm test` and `install-speed` runs `pnpm install`
through `execSync`, which throws on a non-zero exit; the remaining known cases
only log; the `default` case logs the `Unknown check` warning. -/
def runCheck (cmdOk : String → Bool) (check : String) : CheckRun :=
  if check = "valid-lockfile" then
    .completed [.info "Verifying pnpm-lock.yaml..."]
  else if check = "consistent-versions" then
    .completed [.info "Checking for consistent dependency versions..."]
  else if check = "unit-tests-pass" then
    if cmdOk "pnpm test" then .completed [.info "Running unit tests..."]
    else .threw [.info "Running unit tests..."] "Command failed: pnpm test"
  else if check = "ci-pipeline-works" then
    .completed [.info "Simulating CI pipeline..."]
  else if check = "install-speed" then
    if cmdOk "pnpm install" then .completed [.info "Measuring installation speed..."]
    else .threw [.info "Measuring installation speed..."] "Command failed: pnpm install"
  else if check = "disk-usage" then
    .completed [.info "Measuring disk usage..."]
  else
    .completed [.warn ("Unknown check: " ++ check)]

/-- The check identifiers with a dedicated case in the `switch` of `runChecks`. -/
def knownChecks : List String :=
  ["valid-lockfile", "consistent-versions", "unit-tests-pass",
   "ci-pipeline-works", "install-speed", "disk-usage"]

/-- Observable outcome of a `runChecks` call: which checks were entered, the
accumulated log, and the exception that escaped, if any. -/
structure ChecksOutcome where
  executed : List String
  log : List LogEntry
  err : Option String
deriving DecidableEq

/-- Embedding of `runChecks` (lines 297-334): the checks of a stage run
sequentially; an exception thrown by a check body aborts the remaining checks
of the stage and propagates. -/
def runChecks (cmdOk : String → Bool) : List String → ChecksOutcome
  | [] => ⟨[], [], none⟩
  | check :: rest =>
    match runCheck cmdOk check with
    | .completed l =>
      let r := runChecks cmdOk rest
      ⟨check :: r.executed, l ++ r.log, r.err⟩
    | .threw l e => ⟨[check], l, some e⟩

/-- Observable outcome of the top-level stage loop. -/
structure StagesOutcome where
  stagesRun : List String
  checksExecuted : List String
  err : Option String
deriving DecidableEq

/-- Embedding of the stage loop (lines 336-339): every stage is entered in
declared order with no inspection of any per-stage result (`runChecks` returns
nothing); the only way the loop stops early is an exception escaping
`runChecks`, which aborts the remaining stages. -/
def runValidationStages (cmdOk : String → Bool) : List Stage → StagesOutcome
  | [] => ⟨[], [], none⟩
  | st :: rest =>
    let o := runChecks cmdOk st.checks
    match o.err with
    | some e => ⟨[st.stage], o.executed, some e⟩
    | none =>
      let r := runValidationStages cmdOk rest
      ⟨st.stage :: r.stagesRun, o.executed ++ r.checksExecuted, r.err⟩

/-! ## Discovery loop (lines 211-233) -/

/-- Embedding of `cloneRepo` (lines 211-214): `execSync('git clone ...')`
throws on failure; the environment `cloneOk` says which urls clone cleanly. -/
def cloneRepo (cloneOk : String → Bool) (url branch : String) : Except String Unit :=
  if cloneOk url then .ok () else .error ("git clone failed: " ++ url ++ " " ++ branch)

/-- Observable outcome of the discovery location loop. -/
structure DiscoveryOutcome where
  cloned : List String
  err : Option String
deriving DecidableEq

/-- Embedding of the discovery location loop (lines 222-233): for each
location of type `git`, clone it and scan its paths.  The loop body contains
no try/catch, so an exception from `cloneRepo` propagates and aborts the
remaining locations. -/
def discoverLocations (cloneOk : String → Bool) : List Location → DiscoveryOutcome
  | [] => ⟨[], none⟩
  | loc :: rest =>
    if loc.type = "git" then
      match cloneRepo cloneOk loc.url loc.branch with
      | .error e => ⟨[], some e⟩
      | .ok _ =>
        let r := discoverLocations cloneOk rest
        ⟨loc.url :: r.cloned, r.err⟩
    else
      discoverLocations cloneOk rest

/-! ## Error recovery (`handleError`, lines 587-615) -/

/-- The built-in structural failure class tested first by `handleError`. -/
def lockfileInvalidMsg : String := "pnpm-lock.yaml is invalid"

inductive RecoveryOutcome where
  | resolvedBuiltin
  | mapped (pattern : String)
  | escalated
deriving DecidableEq

/-- The mapping search of `handleError` (lines 602-604): first declared
mapping whose pattern occurs in the error message. -/
def findMapping (recipe : Recipe) (errMsg : String) : Option PatternMapping :=
  recipe.ai_agent_instructions.pattern_mappings.npm_to_pnpm.find?
    (fun m => substrB errMsg m.pattern)

/-- Embedding of `handleError` (lines 587-615).  `importOk` is the
external-command environment for the `pnpm import` remedy.  When the error
message contains the invalid-lockfile marker and `pnpm import` succeeds, the
function returns after the built-in fix; when `pnpm import` throws, control
falls through to the generic mapping search, exactly as in the source. -/
def handleError (errMsg : String) (recipe : Recipe) (importOk : Bool) : RecoveryOutcome :=
  if substrB errMsg lockfileInvalidMsg then
    if importOk then
      RecoveryOutcome.resolvedBuiltin
    else
      match findMapping recipe errMsg with
      | some m => RecoveryOutcome.mapped m.pattern
      | none => RecoveryOutcome.escalated
  else
    match findMapping recipe errMsg with
    | some m => RecoveryOutcome.mapped m.pattern
    | none => RecoveryOutcome.escalated

/-! ## Retry loop (`executeMigrationWithRetry`, lines 618-643) -/

structure RetryResult where
  attempts : Nat
  success : Bool
  manualInterventionRequired : Bool
deriving DecidableEq

/-- Embedding of the `while (retries < maxRetries && !success)` loop.
`succeeds i` says whether the migration attempt made with `retries = i`
completes without throwing.  The first component of the result counts the
attempts performed (loop iterations), the second reports `success`. -/
def runRetryLoop (succeeds : Nat → Bool) : Nat → Nat → Nat × Bool
  | retries, 0 => (retries, false)
  | retries, n + 1 =>
    if succeeds retries then (retries + 1, true)
    else runRetryLoop succeeds (retries + 1) n

/-- Embedding of `executeMigrationWithRetry` (lines 618-643).  The retry bound
is the literal `const maxRetries = 3` of line 619: it is not read from the
recipe, whose `target.configuration` entries are never consulted here. -/
def executeMigrationWithRetry (recipe : Recipe) (succeeds : Nat → Bool) : RetryResult :=
  let maxRetries := 3
  let r := runRetryLoop succeeds 0 maxRetries
  { attempts := r.1, success := r.2, manualInterventionRequired := !r.2 }

/-! ## Concrete instances used by the claim theorems -/

/-- The single self-matching mapping `npm -> pnpm`: its replacement contains a
fresh occurrence of its own pattern. -/
def selfMatchMappings : List PatternMapping := [⟨"npm", "pnpm", ""⟩]

/-- The mapping set of the end-to-end example of the spec. -/
def npmRunMappings : List PatternMapping := [⟨"npm run ", "pnpm ", ""⟩]

/-- A recipe whose opaque `target.configuration` carries a max-retries entry
set to five, which `executeMigrationWithRetry` never reads. -/
def recipeRetries5 : Recipe :=
  { emptyRecipe with target := ⟨"pnpm", "8", [("max-retries", ConfigValue.str "5")]⟩ }

/-- A recipe declaring one error-pattern mapping for `ERESOLVE` messages. -/
def eresolveRecipe : Recipe :=
  { emptyRecipe with
    ai_agent_instructions := ⟨[], [], ⟨[⟨"ERESOLVE", "use pnpm overrides", ""⟩]⟩, []⟩ }

/-- An error message that both carries the built-in invalid-lockfile marker
and contains the `ERESOLVE` mapping pattern. -/
def eresolveMsg : String := "pnpm-lock.yaml is invalid: ERESOLVE"

/-- Stage A of the spec's ordering example. -/
def stageA : Stage := ⟨"A", ["valid-lockfile"]⟩

/-- Stage B: its first check runs `pnpm test`, its second only logs. -/
def stageB : Stage := ⟨"B", ["unit-tests-pass", "disk-usage"]⟩

/-- Stage C of the spec's ordering example. -/
def stageC : Stage := ⟨"C", ["consistent-versions"]⟩

/-- Command environment in which `pnpm test` fails and everything else works. -/
def testFailEnv : String → Bool := fun c => !(c == "pnpm test")

/-- A git location whose clone fails. -/
def brokenLoc : Location := ⟨"git", "https://example.com/broken.git", "main", ["package.json"]⟩

/-- A git location whose clone succeeds. -/
def okLoc : Location := ⟨"git", "https://example.com/ok.git", "main", ["package.json"]⟩

/-- Clone environment in which only the broken location's url fails. -/
def cloneEnvC6 : String → Bool := fun url => !(url == "https://example.com/broken.git")

end NpmToPnpm

namespace PyToTs

/-! ## Recipe data model (`validator.ts`, `RecipeSchema`, lines 31-59)

The zod schema only covers `metadata` and `source.code_patterns`, but the
runtime recipe object also carries `source.dependencies.python_packages`,
which `validateDependencies` (line 166) reads; the embedding therefore gives
`source` that field as well.  A package's `typescript_equivalent` may be
absent at runtime (`Option`): indexing `packageJson.dependencies` with the
resulting `undefined` yields `undefined`, which is falsy. -/

structure PyContact where
  email : String
  slack : String
deriving DecidableEq

structure PyMetadata where
  name : String
  description : String
  owner : String
  contact : PyContact
  tags : List String
  priority : String
deriving DecidableEq

structure PythonPattern where
  usage : String
  migration_strategy : String
deriving DecidableEq

structure CodePatternEntry where
  decorators : Option PythonPattern := none
  type_hints : Option PythonPattern := none
  list_comprehensions : Option PythonPattern := none
  generators : Option PythonPattern := none
  async_await : Option PythonPattern := none
deriving DecidableEq

structure PyPackage where
  name : String
  typescript_equivalent : Option String
deriving DecidableEq

structure PyDependencies where
  python_packages : List PyPackage
deriving DecidableEq

structure PySource where
  code_patterns : List CodePatternEntry
  dependencies : PyDependencies
deriving DecidableEq

structure PyRecipe where
  metadata : PyMetadata
  source : PySource
deriving DecidableEq

/-- The `dependencies` map of the `package.json` object handed to
`validateDependencies`. -/
structure PackageJson where
  dependencies : List (String × String)
deriving DecidableEq

/-! ## Schema validation (`validateRecipeStructure`, lines 70-80)

The Lean types already enforce the structural part of `RecipeSchema` (field
presence and shapes), so parsing can only fail on the value-level refinements
of the schema: the email format and the two string enums. -/

/-- Splitting of a character list at every separator, keeping empty pieces,
as JS `String.prototype.split` does. -/
def splitOnChar (sep : Char → Bool) : List Char → List (List Char)
  | [] => [[]]
  | c :: rest =>
    let r := splitOnChar sep rest
    if sep c then [] :: r
    else
      match r with
      | [] => [[c]]
      | piece :: pieces => (c :: piece) :: pieces

/-- Modelled from the spec: the email format check is `z.string().email()`
(line 42), whose grammar lives in the external zod library, not in this
repository.  Following the spec's "basic address grammar": one `@` separating
a non-empty local part of permitted characters with no leading, trailing or
doubled dot from a domain of at least two non-empty labels that start
alphanumeric, contain only alphanumerics and hyphens, and end in an alphabetic
top-level label of length at least two. -/
def emailLocalChar (c : Char) : Bool :=
  c.isAlphanum || c == '_' || c == '+' || c == '-' || c == '.' || c == '\''

/-- Local-part acceptance of the basic address grammar. -/
def emailLocalValid (lp : List Char) : Bool :=
  !lp.isEmpty && lp.all emailLocalChar &&
    !(['.'].isPrefixOf lp) && !(['.'].isSuffixOf lp) && !(occursB ['.', '.'] lp)

/-- One domain label: non-empty, alphanumerics and hyphens, alphanumeric head. -/
def emailLabelValid (lab : List Char) : Bool :=
  !lab.isEmpty && lab.all (fun c => c.isAlphanum || c == '-') &&
    (match lab with
     | [] => false
     | c :: _ => c.isAlphanum)

/-- Top-level label: alphabetic, length at least two. -/
def emailTldValid (lab : List Char) : Bool :=
  (if lab.length < 2 then false else true) && lab.all Char.isAlpha

/-- Domain acceptance of the basic address grammar. -/
def emailDomainValid (d : List Char) : Bool :=
  let labels := splitOnChar (fun c => c == '.') d
  (if labels.length < 2 then false else true) && labels.all emailLabelValid &&
    (match labels.getLast? with
     | some t => emailTldValid t
     | none => false)

/-- Acceptance of the basic address grammar modelling `z.string().email()`. -/
def emailValid (s : String) : Bool :=
  match splitOnChar (fun c => c == '@') s.data with
  | [lp, domain] => emailLocalValid lp && emailDomainValid domain
  | _ => false

/-- The `metadata.priority` enum of `RecipeSchema` (line 46). -/
def priorityValid (p : String) : Bool :=
  p == "low" || p == "medium" || p == "high"

/-- The `usage` enum of `PythonPattern` (line 32). -/
def usageValid (u : String) : Bool :=
  u == "common" || u == "frequent" || u == "occasional"

/-- Zod issues raised by one optional pattern field of a `code_patterns` entry. -/
def patternFieldErrors (path : String) (o : Option PythonPattern) : List String :=
  match o with
  | none => []
  | some pat => if usageValid pat.usage then [] else [path ++ ".usage: Invalid enum value"]

/-- Zod issues raised by one `code_patterns` entry. -/
def codePatternErrors (entry : CodePatternEntry) : List String :=
  patternFieldErrors "decorators" entry.decorators ++
  patternFieldErrors "type_hints" entry.type_hints ++
  patternFieldErrors "list_comprehensions" entry.list_comprehensions ++
  patternFieldErrors "generators" entry.generators ++
  patternFieldErrors "async_await" entry.async_await

/-- The `path: message` strings produced from the `ZodError` by
`validateRecipeStructure` (line 76) when `RecipeSchema.parse` rejects. -/
def schemaErrors (r : PyRecipe) : List String :=
  (if emailValid r.metadata.contact.email then []
   else ["metadata.contact.email: Invalid email"]) ++
  (if priorityValid r.metadata.priority then []
   else ["metadata.priority: Invalid enum value"]) ++
  r.source.code_patterns.foldl (fun errs entry => errs ++ codePatternErrors entry) []

/-- Embedding of `validateRecipeStructure` (lines 70-80): `RecipeSchema.parse`
succeeds exactly when no value-level refinement is violated; on failure the
issues land in `this.validationErrors` and the function returns `false`. -/
def validateRecipeStructure (r : PyRecipe) : Bool :=
  (schemaErrors r).isEmpty

/-! ## External collaborators of the validator

`runTypeCheck`, `checkDecoratorMigration`, `checkListComprehensionMigration`
and `runTestCoverage` are free names in `validator.ts` (callers of external
tooling); their results for the run under analysis form the environment. -/

structure TypeCheckResult where
  coverage : Int
  anyCount : Nat
deriving DecidableEq

structure MigrationCheck where
  valid : Bool
  error : String
deriving DecidableEq

structure CoverageResult where
  percentage : Int
deriving DecidableEq

structure ValidationEnv where
  runTypeCheck : Except String TypeCheckResult
  checkDecoratorMigration : MigrationCheck
  checkListComprehensionMigration : MigrationCheck
  runTestCoverage : Except String CoverageResult

/-! ## The five validation steps (`validator.ts`, lines 82-175) -/

/-- The messages accumulated in the local `typeValidation.errors` of
`validateTypeConversion` (lines 84-105). -/
def typeConversionErrors (result : TypeCheckResult) : List String :=
  (if result.coverage < 85 then
     ["Type coverage " ++ toString result.coverage ++ "% is below required 85%"]
   else []) ++
  (if result.anyCount > 0 then
     ["Found " ++ toString result.anyCount ++ " 'any' types - these should be properly typed"]
   else [])

/-- Embedding of `validateTypeConversion` (lines 83-111): returns whether the
local error list stayed empty; a thrown type check returns `false`. -/
def validateTypeConversion (env : ValidationEnv) : Bool :=
  match env.runTypeCheck with
  | Except.ok result => (typeConversionErrors result).isEmpty
  | Except.error _ => false

/-- The messages accumulated in the local `patternErrors` of
`validatePatternMigration` (lines 114-140): one decorator check when the entry
declares `decorators`, one list-comprehension check when it declares
`list_comprehensions`. -/
def patternMigrationErrors (r : PyRecipe) (env : ValidationEnv) : List String :=
  r.source.code_patterns.foldl
    (fun patternErrors pattern =>
      let patternErrors :=
        if pattern.decorators.isSome && !env.checkDecoratorMigration.valid then
          patternErrors ++ ["Decorator migration error: " ++ env.checkDecoratorMigration.error]
        else patternErrors
      if pattern.list_comprehensions.isSome && !env.checkListComprehensionMigration.valid then
        patternErrors ++
          ["List comprehension migration error: " ++ env.checkListComprehensionMigration.error]
      else patternErrors)
    []

/-- Embedding of `validatePatternMigration` (lines 114-140). -/
def validatePatternMigration (r : PyRecipe) (env : ValidationEnv) : Bool :=
  (patternMigrationErrors r env).isEmpty

/-- Embedding of `validateTestCoverage` (lines 143-159): fails below 80%
coverage or when the coverage run throws.  Its messages go into
`this.validationErrors`, which the returned `ValidationResult` never carries. -/
def validateTestCoverage (env : ValidationEnv) : Bool :=
  match env.runTestCoverage with
  | Except.ok coverage => if coverage.percentage < 80 then false else true
  | Except.error _ => false

/-- Truthiness of `packageJson.dependencies[pkg.typescript_equivalent]`
(line 167): an absent equivalent indexes with `undefined`, an absent key
yields `undefined`, and an empty-string version is falsy. -/
def depSatisfied (pj : PackageJson) (pkg : PyPackage) : Bool :=
  match pkg.typescript_equivalent with
  | none => false
  | some k =>
    match (pj.dependencies.find? (fun p => p.1 == k)).map (fun p => p.2) with
    | none => false
    | some v => !(v == "")

/-- The messages accumulated in the local `dependencyErrors` of
`validateDependencies` (lines 163-172).  This list is local to the function:
it is never merged into `this.validationErrors` nor returned. -/
def validateDependenciesErrors (r : PyRecipe) (pj : PackageJson) : List String :=
  r.source.dependencies.python_packages.foldl
    (fun dependencyErrors pkg =>
      if depSatisfied pj pkg then dependencyErrors
      else dependencyErrors ++
        ["Missing TypeScript equivalent for Python package: " ++ pkg.name])
    []

/-- Embedding of `validateDependencies` (lines 162-175): returns
`dependencyErrors.length === 0` and discards the list itself. -/
def validateDependencies (r : PyRecipe) (pj : PackageJson) : Bool :=
  (validateDependenciesErrors r pj).isEmpty

/-! ## The comprehensive runner (`validateMigration`, lines 178-234) -/

structure ValidationResult where
  recipeValid : Bool
  typeCheckPassed : Bool
  patternsPassed : Bool
  testsPassed : Bool
  dependenciesValid : Bool
  errors : List String
deriving DecidableEq

/-- Embedding of `validateMigration` (lines 178-234).  The `results` object is
initialised with every flag `false`; on a schema failure the function returns
early with the zod issues.  Step 4 binds `const testsPassed = ...` (line 218),
a local constant: `results.testsPassed` is never assigned, so the returned
`testsPassed` field stays `false` on every path. -/
def validateMigration (r : PyRecipe) (env : ValidationEnv) (pj : PackageJson) :
    ValidationResult :=
  let recipeValid := validateRecipeStructure r
  if recipeValid then
    let typeCheckPassed := validateTypeConversion env
    let patternsPassed := validatePatternMigration r env
    let testsPassed := validateTestCoverage env
    let dependenciesValid := validateDependencies r pj
    { recipeValid := recipeValid
      typeCheckPassed := typeCheckPassed
      patternsPassed := patternsPassed
      testsPassed := false
      dependenciesValid := dependenciesValid
      errors :=
        (if typeCheckPassed then [] else ["Type validation failed"]) ++
        (if patternsPassed then [] else ["Pattern migration validation failed"]) ++
        (if testsPassed then [] else ["Test coverage validation failed"]) ++
        (if dependenciesValid then [] else ["Dependency validation failed"]) }
  else
    { recipeValid := false
      typeCheckPassed := false
      patternsPassed := false
      testsPassed := false
      dependenciesValid := false
      errors := schemaErrors r }

/-! ## Concrete instances used by the claim theorems -/

/-- A recipe passing `RecipeSchema` whose `python_packages` name equivalents
that the target `package.json` does not provide. -/
def pyRecipeC5 : PyRecipe :=
  ⟨⟨"python-to-typescript-migration", "convert python codebase", "development-team",
    ⟨"dev-team@company.com", "#code-migration"⟩,
    ["code-migration"], "medium"⟩,
   ⟨[], ⟨[⟨"pandas", some "apache-arrow"⟩, ⟨"flask", some "express"⟩]⟩⟩⟩

/-- A `package.json` without the two required equivalents. -/
def pjC5 : PackageJson := ⟨[("axios", "1.6.0")]⟩

/-- An environment in which every external collaborator reports success. -/
def envOk : ValidationEnv :=
  ⟨Except.ok ⟨90, 0⟩, ⟨true, ""⟩, ⟨true, ""⟩, Except.ok ⟨85⟩⟩

/-- A `package.json` providing both equivalents of `pyRecipeC5`. -/
def pjAllDeps : PackageJson := ⟨[("apache-arrow", "14.0.0"), ("express", "4.18.0")]⟩

/-- The recipe of `pyRecipeC5` with a malformed contact email. -/
def pyRecipeBadEmail : PyRecipe :=
  ⟨⟨"python-to-typescript-migration", "convert python codebase", "development-team",
    ⟨"not-an-email", "#code-migration"⟩,
    ["code-migration"], "medium"⟩,
   ⟨[], ⟨[]⟩⟩⟩

end PyToTs


/-! # Helper lemmas -/

/-- The empty pattern occurs in every character list. -/
theorem occursB_nil (s : List Char) : occursB [] s = true := by
  cases s <;> simp [occursB, List.isPrefixOf]

/-- A pattern that occurs nowhere in the text leaves the replacement scan
without any match, whatever the fuel. -/
theorem replaceLFuel_of_not_occurs (pat repl : List Char) :
    ∀ (fuel : Nat) (s : List Char), occursB pat s = false →
      replaceLFuel pat repl fuel s = s := by
  intro fuel
  induction fuel with
  | zero => intro s _; rfl
  | succ n ih =>
    intro s h
    cases s with
    | nil => rfl
    | cons c rest =>
      rw [occursB, Bool.or_eq_false_iff] at h
      simp [replaceLFuel, h.1, ih rest h.2]

/-- Global replacement of a pattern that does not occur in the text is the
identity. -/
theorem jsReplaceAll_of_not_occurs (t pat repl : String) (h : substrB t pat = false) :
    jsReplaceAll t pat repl = t := by
  have hne : pat.data ≠ [] := by
    intro he
    rw [substrB, he, occursB_nil] at h
    cases h
  rw [jsReplaceAll, if_neg hne, replaceL,
    replaceLFuel_of_not_occurs pat.data repl.data t.data.length t.data h]

/-- A fold whose every step fixes the accumulator fixes it overall. -/
theorem foldl_fixed {α β : Type} (f : α → β → α) (t : α) :
    ∀ (l : List β), (∀ m ∈ l, f t m = t) → l.foldl f t = t := by
  intro l
  induction l with
  | nil => intro _; rfl
  | cons m rest ih =>
    intro h
    rw [List.foldl_cons, h m (List.mem_cons_self m rest)]
    exact ih (fun x hx => h x (List.mem_cons_of_mem m hx))

/-- A fold whose steps never shorten the accumulator never shortens it. -/
theorem foldl_grow_length {β : Type} (f : List String → β → List String)
    (hf : ∀ errs x, errs.length ≤ (f errs x).length) :
    ∀ (l : List β) (init : List String), init.length ≤ (l.foldl f init).length := by
  intro l
  induction l with
  | nil => intro init; exact Nat.le_refl _
  | cons x rest ih =>
    intro init
    rw [List.foldl_cons]
    exact Nat.le_trans (hf init x) (ih (f init x))

/-- A fold whose steps never shorten the accumulator, applied to a list
containing an element whose step strictly lengthens it, strictly lengthens
the accumulator. -/
theorem foldl_grow_strict {β : Type} (f : List String → β → List String)
    (hf : ∀ errs x, errs.length ≤ (f errs x).length)
    (x : β) (hx : ∀ errs, errs.length < (f errs x).length) :
    ∀ (l : List β), x ∈ l → ∀ init, init.length < (l.foldl f init).length := by
  intro l
  induction l with
  | nil => intro h; cases h
  | cons y rest ih =>
    intro hmem init
    rw [List.foldl_cons]
    rcases List.mem_cons.mp hmem with heq | htail
    · subst heq
      exact Nat.lt_of_lt_of_le (hx init) (foldl_grow_length f hf rest (f init x))
    · exact Nat.lt_of_le_of_lt (hf init y) (ih htail (f init y))

/-! # Claim theorems -/

open NpmToPnpm PyToTs

/-! ## C1: idempotence of `convertLockfile` -/

/-- C1, counterexample.  The claim "applying the transformation twice yields
output identical to applying it once, for every file content and every
mapping set" is false of `convertLockfile`: with the single realistic mapping
`npm -> pnpm` the first pass turns the content `npm` into `pnpm`, and the
second pass matches the `npm` inside that replacement and produces `ppnpm`. -/
theorem convertLockfile_not_idempotent_on_selfmatch :
    convertLockfile "npm" selfMatchMappings = "pnpm" ∧
    convertLockfile (convertLockfile "npm" selfMatchMappings) selfMatchMappings = "ppnpm" ∧
    convertLockfile (convertLockfile "npm" selfMatchMappings) selfMatchMappings ≠
      convertLockfile "npm" selfMatchMappings :=
  ⟨by decide, by decide, by decide⟩

/-- C1 (amended): `convertLockfile` is idempotent on every input whose
once-transformed output contains no occurrence of any mapping's pattern —
the "mappings cannot self-match" condition the spec assumes.  The code does
not enforce that condition, and a self-matching mapping violates idempotence
(see the counterexample). -/
theorem convertLockfile_idempotent (s : String) (mappings : List PatternMapping)
    (h : ∀ m ∈ mappings, substrB (convertLockfile s mappings) m.pattern = false) :
    convertLockfile (convertLockfile s mappings) mappings = convertLockfile s mappings := by
  have hfix : ∀ m ∈ mappings,
      jsReplaceAll (convertLockfile s mappings) m.pattern m.pnpm = convertLockfile s mappings :=
    fun m hm => jsReplaceAll_of_not_occurs _ _ _ (h m hm)
  conv_lhs => rw [convertLockfile]
  exact foldl_fixed _ _ mappings hfix

/-- C1, witness: the spec's own example mapping set `npm run  -> pnpm ` on the
example script is a concrete input satisfying the no-self-match hypothesis,
and there the second pass changes nothing. -/
theorem convertLockfile_idempotent_witness :
    convertLockfile (convertLockfile "npm run build && npm test" npmRunMappings) npmRunMappings =
      convertLockfile "npm run build && npm test" npmRunMappings :=
  convertLockfile_idempotent "npm run build && npm test" npmRunMappings (by decide)

/-! ## C9: the end-to-end `npm run ` example -/

/-- C9: with the single declared mapping `npm run  -> pnpm `, the script
`npm run build && npm test` transforms to exactly `pnpm build && npm test`,
both through `convertLockfile` and through the `replace-npm-run-with-pnpm`
action body; the `npm test` occurrence without `run` is left untouched. -/
theorem npm_run_example_transform :
    convertLockfile "npm run build && npm test" npmRunMappings = "pnpm build && npm test" ∧
    replaceNpmRunWithPnpm "npm run build && npm test" = "pnpm build && npm test" :=
  ⟨by decide, by decide⟩

/-! ## C2: the retry bound -/

/-- When every attempt fails, the retry loop runs through its whole budget and
reports failure, performing exactly `retries + fuel` attempts. -/
theorem runRetryLoop_all_fail (succeeds : Nat → Bool) (h : ∀ i, succeeds i = false) :
    ∀ (fuel retries : Nat), runRetryLoop succeeds retries fuel = (retries + fuel, false) := by
  intro fuel
  induction fuel with
  | zero => intro r; rfl
  | succ n ih =>
    intro r
    have heq : r + 1 + n = r + (n + 1) := by omega
    simp [runRetryLoop, h r, ih (r + 1), heq]

/-- C2, counterexample.  The claim says the maximum retry count is
configuration-supplied; but `executeMigrationWithRetry` hard-codes
`const maxRetries = 3` and never reads the recipe's configuration, so a run
configured with a max-retries entry of five still performs exactly three
attempts. -/
theorem executeMigrationWithRetry_ignores_configuration :
    recipeRetries5.target.configuration = [("max-retries", ConfigValue.str "5")] ∧
    (executeMigrationWithRetry recipeRetries5 (fun _ => false)).attempts = 3 ∧
    (executeMigrationWithRetry recipeRetries5 (fun _ => false)).attempts ≠ 5 :=
  ⟨rfl, by decide, by decide⟩

/-- C2 (amended): the retry maximum is the hard-coded literal 3, not a
configuration value; for every recipe, when every migration attempt fails the
run performs exactly 3 attempts, never more, reports no success and requires
manual intervention. -/
theorem executeMigrationWithRetry_hardcoded_three (recipe : Recipe) (succeeds : Nat → Bool)
    (h : ∀ i, succeeds i = false) :
    (executeMigrationWithRetry recipe succeeds).attempts = 3 ∧
    (executeMigrationWithRetry recipe succeeds).success = false ∧
    (executeMigrationWithRetry recipe succeeds).manualInterventionRequired = true := by
  simp [executeMigrationWithRetry, runRetryLoop_all_fail succeeds h]

/-- C2, witness: the empty recipe with a never-succeeding migration makes
exactly three attempts and escalates. -/
theorem executeMigrationWithRetry_hardcoded_three_witness :
    (executeMigrationWithRetry emptyRecipe (fun _ => false)).attempts = 3 ∧
    (executeMigrationWithRetry emptyRecipe (fun _ => false)).success = false ∧
    (executeMigrationWithRetry emptyRecipe (fun _ => false)).manualInterventionRequired = true :=
  executeMigrationWithRetry_hardcoded_three emptyRecipe (fun _ => false) (fun _ => rfl)

/-! ## C3: halting of the validation stage pipeline -/

/-- C3, counterexample.  With stages `[A, B, C]` where stage B's first check
`unit-tests-pass` fails (the `pnpm test` command exits non-zero), the code
does not run the remaining check `disk-usage` of the failing stage, contrary
to the claim that all checks of the failing stage still run with full detail;
stage C is indeed never executed. -/
theorem stage_loop_skips_sibling_checks :
    stageB.checks.contains "disk-usage" = true ∧
    (runValidationStages testFailEnv [stageA, stageB, stageC]).checksExecuted.contains
      "disk-usage" = false ∧
    (runValidationStages testFailEnv [stageA, stageB, stageC]).stagesRun.contains "C" = false :=
  ⟨by decide, by decide, by decide⟩

/-- C3 (amended): the only observable check failure in the code is an
exception from an external command, and when a check of stage B throws while
stage A completed cleanly, the pipeline does halt before stage C — but it
aborts with the propagated exception, executing only the checks of B up to
and including the throwing one, and reports no per-stage result. -/
theorem runValidationStages_halts_on_throw (cmdOk : String → Bool) (a b c : Stage) (e : String)
    (ha : (runChecks cmdOk a.checks).err = none)
    (hb : (runChecks cmdOk b.checks).err = some e) :
    (runValidationStages cmdOk [a, b, c]).stagesRun = [a.stage, b.stage] ∧
    (runValidationStages cmdOk [a, b, c]).checksExecuted =
      (runChecks cmdOk a.checks).executed ++ (runChecks cmdOk b.checks).executed ∧
    (runValidationStages cmdOk [a, b, c]).err = some e := by
  simp [runValidationStages, ha, hb]

/-- C3, witness: the concrete three-stage pipeline in the environment where
`pnpm test` fails halts after stage B with the propagated command error. -/
theorem runValidationStages_halts_on_throw_witness :
    (runValidationStages testFailEnv [stageA, stageB, stageC]).stagesRun =
      [stageA.stage, stageB.stage] ∧
    (runValidationStages testFailEnv [stageA, stageB, stageC]).checksExecuted =
      (runChecks testFailEnv stageA.checks).executed ++
        (runChecks testFailEnv stageB.checks).executed ∧
    (runValidationStages testFailEnv [stageA, stageB, stageC]).err =
      some "Command failed: pnpm test" :=
  runValidationStages_halts_on_throw testFailEnv stageA stageB stageC
    "Command failed: pnpm test" (by decide) (by decide)

/-! ## C6: discovery resilience -/

/-- C6, counterexample.  A location that clones cleanly on its own is never
reached when a broken location precedes it: the clone failure propagates out
of the loop, nothing is recorded as retrieved, and discovery of the remaining
locations is aborted, contrary to the claim that discovery records the
failure and continues. -/
theorem discovery_broken_location_aborts_rest :
    (discoverLocations cloneEnvC6 [okLoc]).cloned = ["https://example.com/ok.git"] ∧
    (discoverLocations cloneEnvC6 [brokenLoc, okLoc]).cloned = [] ∧
    (discoverLocations cloneEnvC6 [brokenLoc, okLoc]).err.isSome = true :=
  ⟨by decide, by decide, by decide⟩

/-- C6 (amended): a clone failure at a git location makes the discovery loop
abort immediately: the error propagates, no location is recorded as
retrieved, and every remaining location is skipped. -/
theorem discoverLocations_aborts_on_clone_failure (cloneOk : String → Bool)
    (loc : Location) (rest : List Location)
    (hgit : loc.type = "git") (hfail : cloneOk loc.url = false) :
    discoverLocations cloneOk (loc :: rest) =
      ⟨[], some ("git clone failed: " ++ loc.url ++ " " ++ loc.branch)⟩ := by
  simp [discoverLocations, cloneRepo, hgit, hfail]

/-- C6, witness: the broken location aborts the concrete two-location
discovery with the clone error. -/
theorem discoverLocations_aborts_witness :
    discoverLocations cloneEnvC6 [brokenLoc, okLoc] =
      ⟨[], some ("git clone failed: " ++ brokenLoc.url ++ " " ++ brokenLoc.branch)⟩ :=
  discoverLocations_aborts_on_clone_failure cloneEnvC6 brokenLoc [okLoc] rfl (by decide)

/-! ## C7: unknown check identifiers -/

/-- C7: running a check whose identifier has no case in the `switch` of
`runChecks` hits the `default` branch: it produces the distinct warning
`Unknown check: <id>` — an outcome distinguishable both from a failure (no
exception is thrown) and from a silent no-op (the warning names the check). -/
theorem runCheck_unknown_distinguishable (cmdOk : String → Bool) (check : String)
    (h : check ∉ knownChecks) :
    runCheck cmdOk check = CheckRun.completed [LogEntry.warn ("Unknown check: " ++ check)] ∧
    runChecks cmdOk [check] =
      ⟨[check], [LogEntry.warn ("Unknown check: " ++ check)], none⟩ ∧
    (∀ l e, runCheck cmdOk check ≠ CheckRun.threw l e) := by
  simp only [knownChecks, List.mem_cons, List.not_mem_nil, or_false, not_or] at h
  obtain ⟨h1, h2, h3, h4, h5, h6⟩ := h
  refine ⟨?_, ?_, ?_⟩ <;> simp [runCheck, runChecks, h1, h2, h3, h4, h5, h6]

/-- C7, witness: the identifier `bogus-check` is not a known check and
resolves to the explicit warning outcome. -/
theorem runCheck_unknown_distinguishable_witness :
    runCheck (fun _ => true) "bogus-check" =
      CheckRun.completed [LogEntry.warn ("Unknown check: " ++ "bogus-check")] ∧
    runChecks (fun _ => true) ["bogus-check"] =
      ⟨["bogus-check"], [LogEntry.warn ("Unknown check: " ++ "bogus-check")], none⟩ :=
  ⟨(runCheck_unknown_distinguishable (fun _ => true) "bogus-check" (by decide)).1,
   (runCheck_unknown_distinguishable (fun _ => true) "bogus-check" (by decide)).2.1⟩

/-! ## C4: error recovery order -/

/-- When the built-in invalid-lockfile marker is absent from the message, or
the `pnpm import` remedy fails, `handleError` reaches the mapping search. -/
theorem handleError_fallback (errMsg : String) (recipe : Recipe) (importOk : Bool)
    (hcond : substrB errMsg lockfileInvalidMsg = false ∨ importOk = false) :
    handleError errMsg recipe importOk =
      (match findMapping recipe errMsg with
       | some m => RecoveryOutcome.mapped m.pattern
       | none => RecoveryOutcome.escalated) := by
  rcases hcond with h | h
  · rw [handleError, if_neg (by simp [h])]
  · subst h
    rw [handleError]
    split
    · rfl
    · rfl

/-- C4, counterexample.  The claim says the pattern-mapping search happens
only if no built-in failure class matches; but when the invalid-lockfile
class matches and the `pnpm import` remedy itself fails, `handleError` falls
through to the mapping search: on an error message carrying the built-in
marker, a recipe with an `ERESOLVE` mapping is applied. -/
theorem handleError_searches_mappings_after_builtin_match :
    substrB eresolveMsg lockfileInvalidMsg = true ∧
    handleError eresolveMsg eresolveRecipe false = RecoveryOutcome.mapped "ERESOLVE" :=
  ⟨by decide, by decide⟩

/-- C4 (amended): `handleError` first tests the built-in invalid-lockfile
class and resolves through it exactly when the marker occurs in the message
and `pnpm import` succeeds; when the marker is absent or the remedy fails it
searches `pattern_mappings`, and any mapped outcome comes from the first
declared mapping whose pattern occurs in the message; it escalates exactly
when that search finds nothing and the built-in path did not resolve. -/
theorem handleError_recovery_order (errMsg : String) (recipe : Recipe) (importOk : Bool) :
    (handleError errMsg recipe importOk = RecoveryOutcome.resolvedBuiltin ↔
       substrB errMsg lockfileInvalidMsg = true ∧ importOk = true) ∧
    (∀ p, handleError errMsg recipe importOk = RecoveryOutcome.mapped p →
       (substrB errMsg lockfileInvalidMsg = false ∨ importOk = false) ∧
       ∃ m, findMapping recipe errMsg = some m ∧ m.pattern = p ∧
         substrB errMsg m.pattern = true) ∧
    (handleError errMsg recipe importOk = RecoveryOutcome.escalated ↔
       findMapping recipe errMsg = none ∧
       ¬(substrB errMsg lockfileInvalidMsg = true ∧ importOk = true)) := by
  have boolSplit : ∀ b : Bool, b ≠ true → b = false := by
    intro b h
    cases b
    · rfl
    · exact absurd rfl h
  have hfbOf : ¬(substrB errMsg lockfileInvalidMsg = true ∧ importOk = true) →
      substrB errMsg lockfileInvalidMsg = false ∨ importOk = false := by
    intro hcond
    by_cases hsub : substrB errMsg lockfileInvalidMsg = true
    · right
      cases hi : importOk
      · rfl
      · exact absurd ⟨hsub, hi⟩ hcond
    · exact Or.inl (boolSplit _ hsub)
  refine ⟨⟨?_, ?_⟩, ?_, ?_, ?_⟩
  · intro hres
    by_cases hsub : substrB errMsg lockfileInvalidMsg = true
    · refine ⟨hsub, ?_⟩
      by_contra himp
      have himp' : importOk = false := boolSplit _ himp
      rw [handleError_fallback errMsg recipe importOk (Or.inr himp')] at hres
      cases hfind : findMapping recipe errMsg <;> rw [hfind] at hres <;> simp at hres
    · have hsub' := boolSplit _ hsub
      rw [handleError_fallback errMsg recipe importOk (Or.inl hsub')] at hres
      cases hfind : findMapping recipe errMsg <;> rw [hfind] at hres <;> simp at hres
  · rintro ⟨hsub, himp⟩
    subst himp
    rw [handleError, if_pos hsub]
    rfl
  · intro p hp
    by_cases hcond : substrB errMsg lockfileInvalidMsg = true ∧ importOk = true
    · obtain ⟨hsub, himp⟩ := hcond
      subst himp
      rw [handleError, if_pos hsub] at hp
      simp at hp
    · have hfb := hfbOf hcond
      rw [handleError_fallback errMsg recipe importOk hfb] at hp
      cases hfind : findMapping recipe errMsg with
      | none => rw [hfind] at hp; simp at hp
      | some m =>
        rw [hfind] at hp
        simp only [RecoveryOutcome.mapped.injEq] at hp
        have hfind' : List.find? (fun x => substrB errMsg x.pattern)
            recipe.ai_agent_instructions.pattern_mappings.npm_to_pnpm = some m := by
          simpa [findMapping] using hfind
        have hprop := List.find?_some hfind'
        exact ⟨hfb, m, rfl, hp, by simpa using hprop⟩
  · intro hesc
    by_cases hcond : substrB errMsg lockfileInvalidMsg = true ∧ importOk = true
    · obtain ⟨hsub, himp⟩ := hcond
      subst himp
      rw [handleError, if_pos hsub] at hesc
      simp at hesc
    · have hfb := hfbOf hcond
      rw [handleError_fallback errMsg recipe importOk hfb] at hesc
      cases hfind : findMapping recipe errMsg with
      | some m => rw [hfind] at hesc; simp at hesc
      | none => exact ⟨rfl, hcond⟩
  · rintro ⟨hfind, hcond⟩
    rw [handleError_fallback errMsg recipe importOk (hfbOf hcond), hfind]

/-- C4, witness: on a message carrying only the built-in marker, with the
remedy succeeding, the outcome is the built-in resolution. -/
theorem handleError_recovery_order_witness :
    handleError "pnpm-lock.yaml is invalid" emptyRecipe true =
      RecoveryOutcome.resolvedBuiltin :=
  (handleError_recovery_order "pnpm-lock.yaml is invalid" emptyRecipe true).1.mpr
    ⟨by decide, rfl⟩

/-! ## C5: unresolved dependencies in the final report -/

/-- C5, counterexample.  With two recipe packages whose declared equivalents
are both missing from the target `package.json`, the final report carries only
the generic `Dependency validation failed` line: no error names either entry
(no report entry mentions `pandas`), even though the per-entry messages were
computed in `validateDependencies`' local list and then discarded. -/
theorem validateMigration_drops_unresolved_names :
    (validateMigration pyRecipeC5 envOk pjC5).errors = ["Dependency validation failed"] ∧
    ((validateMigration pyRecipeC5 envOk pjC5).errors.all
      (fun e => !(substrB e "pandas"))) = true ∧
    validateDependenciesErrors pyRecipeC5 pjC5 =
      ["Missing TypeScript equivalent for Python package: pandas",
       "Missing TypeScript equivalent for Python package: flask"] :=
  ⟨by decide, by decide, by decide⟩

/-- C5 (amended): a dependencies entry lacking a usable target equivalent is
not silently accepted — `validateMigration` reports `dependenciesValid =
false` and the generic `Dependency validation failed` error — but the entry
itself never appears in the final report: the per-entry messages stay in a
local list that `validateDependencies` discards. -/
theorem validateMigration_unresolved_dependency (r : PyRecipe) (env : ValidationEnv)
    (pj : PackageJson) (hvalid : validateRecipeStructure r = true)
    (pkg : PyPackage) (hmem : pkg ∈ r.source.dependencies.python_packages)
    (hmiss : depSatisfied pj pkg = false) :
    (validateMigration r env pj).dependenciesValid = false ∧
    "Dependency validation failed" ∈ (validateMigration r env pj).errors := by
  have hgrow : ∀ (errs : List String) (x : PyPackage),
      errs.length ≤ ((fun dependencyErrors pkg =>
        if depSatisfied pj pkg then dependencyErrors
        else dependencyErrors ++
          ["Missing TypeScript equivalent for Python package: " ++ pkg.name])
          errs x).length := by
    intro errs x
    cases hx : depSatisfied pj x
    · simp [hx]
    · simp [hx]
  have hstrict : ∀ errs : List String,
      errs.length < ((fun dependencyErrors pkg =>
        if depSatisfied pj pkg then dependencyErrors
        else dependencyErrors ++
          ["Missing TypeScript equivalent for Python package: " ++ pkg.name])
          errs pkg).length := by
    intro errs
    simp [hmiss]
  have hlen : 0 < (validateDependenciesErrors r pj).length := by
    have := foldl_grow_strict _ hgrow pkg hstrict
      r.source.dependencies.python_packages hmem []
    simpa [validateDependenciesErrors] using this
  have hne : validateDependenciesErrors r pj ≠ [] := by
    intro he
    rw [he] at hlen
    exact absurd hlen (by simp)
  have hdep : validateDependencies r pj = false := by
    rw [validateDependencies]
    cases hc : validateDependenciesErrors r pj with
    | nil => exact absurd hc hne
    | cons a t => simp
  constructor
  · simp [validateMigration, hvalid, hdep]
  · simp [validateMigration, hvalid, hdep]

/-- C5, witness: the concrete recipe whose `pandas` entry has no usable
equivalent in the target `package.json` is reported invalid with the generic
error. -/
theorem validateMigration_unresolved_dependency_witness :
    (validateMigration pyRecipeC5 envOk pjC5).dependenciesValid = false ∧
    "Dependency validation failed" ∈ (validateMigration pyRecipeC5 envOk pjC5).errors :=
  validateMigration_unresolved_dependency pyRecipeC5 envOk pjC5 (by decide)
    ⟨"pandas", some "apache-arrow"⟩ (by decide) (by decide)

/-! ## C8: malformed contact emails are rejected -/

/-- C8: a recipe whose `metadata.contact.email` fails the basic address
grammar is rejected by `validateRecipeStructure`, and the rejection names the
email field — the malformed address is a reported validation error, never
silently accepted. -/
theorem validateRecipeStructure_rejects_bad_email (r : PyRecipe)
    (h : emailValid r.metadata.contact.email = false) :
    validateRecipeStructure r = false ∧
    "metadata.contact.email: Invalid email" ∈ schemaErrors r := by
  constructor
  · simp [validateRecipeStructure, schemaErrors, h]
  · simp [schemaErrors, h]

/-- C8, witness: the string `not-an-email` fails the grammar and the recipe
carrying it is rejected with the email error. -/
theorem validateRecipeStructure_rejects_bad_email_witness :
    emailValid "not-an-email" = false ∧
    (validateRecipeStructure pyRecipeBadEmail = false ∧
     "metadata.contact.email: Invalid email" ∈ schemaErrors pyRecipeBadEmail) :=
  ⟨by decide, validateRecipeStructure_rejects_bad_email pyRecipeBadEmail (by decide)⟩

/-! ## C10: the `testsPassed` field is never set -/

/-- C10: for every migration configuration whose recipe passes structural
validation, the returned `testsPassed` field is `false`, whatever the
test-coverage outcome: `validateMigration` stores the coverage result only in
a local constant and in the errors list, never in `results.testsPassed`. -/
theorem validateMigration_testsPassed_always_false (r : PyRecipe) (env : ValidationEnv)
    (pj : PackageJson) (hvalid : validateRecipeStructure r = true) :
    (validateMigration r env pj).testsPassed = false := by
  simp [validateMigration, hvalid]

/-- C10, witness: a run in which every check, including test coverage,
succeeds (the report is empty) still returns `testsPassed = false`. -/
theorem validateMigration_testsPassed_always_false_witness :
    validateTestCoverage envOk = true ∧
    (validateMigration pyRecipeC5 envOk pjAllDeps).errors = [] ∧
    (validateMigration pyRecipeC5 envOk pjAllDeps).testsPassed = false :=
  ⟨by decide, by decide,
   validateMigration_testsPassed_always_false pyRecipeC5 envOk pjAllDeps (by decide)⟩
